import Mathlib

/-!
A shallow embedding of the aepc proto writer (`writer/proto/resource.go`):
the resource-to-service compiler that turns a parsed resource schema into
protobuf messages, RPC methods and HTTP binding metadata, together with
proofs about its behaviour.
-/

/-- Scalar field types of the resource schema (`schema.Type`).
Modelled from the spec: the `schema` package is not under `src/`; the spec
lists the supported scalar kinds string, int32, int64, bool, double, float;
`unspecified` stands for the enum's unmapped zero value, which falls into
the `default` branch of the compiler's type switch. -/
inductive SchemaType where
  | string
  | int32
  | int64
  | boolean
  | double
  | float
  | unspecified
deriving DecidableEq, Repr

/-- Printed name of a schema type, as Go renders the enum with a %s verb.
Modelled from the spec: the exact enum value names live in the missing
`schema` package; the compiler only interpolates them into error text. -/
def SchemaType.name : SchemaType → String
  | .string => "STRING"
  | .int32 => "INT32"
  | .int64 => "INT64"
  | .boolean => "BOOLEAN"
  | .double => "DOUBLE"
  | .float => "FLOAT"
  | .unspecified => "TYPE_UNSPECIFIED"

/-- A field of the resource schema (`parser` package field: Name, Type, Number). -/
structure FieldSchema where
  name : String
  type : SchemaType
  number : Nat
deriving DecidableEq, Repr

/-- Which standard methods are enabled (`r.Methods` with non-nil per-method
pointers in Go; here a Bool per method). -/
structure MethodSet where
  create : Bool
  read : Bool
  update : Bool
  delete : Bool
  list : Bool
  globalList : Bool
  apply : Bool
deriving DecidableEq, Repr

/-- The parsed resource (`parser.ParsedResource`): kind, plural, type,
fields, parent resources and the enabled method set.  `methods = none`
models a nil `r.Methods` pointer. -/
inductive ParsedResource where
  | mk (kind : String) (plural : String) (rtype : String)
      (fields : List FieldSchema) (parents : List ParsedResource)
      (methods : Option MethodSet)

def ParsedResource.kind : ParsedResource → String
  | .mk k _ _ _ _ _ => k

def ParsedResource.plural : ParsedResource → String
  | .mk _ p _ _ _ _ => p

def ParsedResource.rtype : ParsedResource → String
  | .mk _ _ t _ _ _ => t

def ParsedResource.fields : ParsedResource → List FieldSchema
  | .mk _ _ _ f _ _ => f

def ParsedResource.parents : ParsedResource → List ParsedResource
  | .mk _ _ _ _ ps _ => ps

def ParsedResource.methods : ParsedResource → Option MethodSet
  | .mk _ _ _ _ _ m => m

/-- Go's strings.ToLower (ASCII case folding suffices for this compiler). -/
def toLowerStr (s : String) : String := ⟨s.data.map Char.toLower⟩

/-- Go's strings.Join. -/
def strJoin (elems : List String) (sep : String) : String :=
  match elems with
  | [] => ""
  | x :: xs => xs.foldl (fun acc y => acc ++ sep ++ y) x

/-- The body of the `for p != nil` loop in `generateHTTPPath`.  Faithful to
the Go source: `p` is never reassigned inside the loop, each iteration
prepends `strings.ToLower(p.Plural)` to `elements` and the loop exits only
when `len(p.Parents) == 0`.  Divergence of the Go loop is modelled by the
fuel running out, returning `none`. -/
def httpPathLoop (p : ParsedResource) : Nat → List String → Option (List String)
  | 0, _ => none
  | fuel + 1, elements =>
    if p.parents.isEmpty then some (toLowerStr p.plural :: elements)
    else httpPathLoop p fuel (toLowerStr p.plural :: elements)

/-- `generateHTTPPath` from resource.go: starts from the resource's own
plural, runs the parent loop when the resource has parents, and joins the
elements with the wildcard separator.  `none` models non-termination. -/
def generateHTTPPath (fuel : Nat) (r : ParsedResource) : Option String :=
  match
    (match r.parents with
     | [] => some [toLowerStr r.plural]
     | p :: _ => httpPathLoop p fuel [toLowerStr r.plural]) with
  | none => none
  | some elements => some (strJoin elements "/*/" ++ "/*")

/-- `generateParentHTTPPath` from resource.go: the parent capture group is
`parentPath` (empty for a parentless resource, otherwise the first parent's
collection path) directly concatenated with the lowercased plural; note the
Go format string "%v%v" inserts no separator between the two. -/
def generateParentHTTPPath (fuel : Nat) (r : ParsedResource) : Option String :=
  match r.parents with
  | [] => some ("/\x7bparent=" ++ toLowerStr r.plural ++ "\x7d")
  | p :: _ =>
    match generateHTTPPath fuel p with
    | none => none
    | some parentPath =>
      some ("/\x7bparent=" ++ parentPath ++ toLowerStr r.plural ++ "\x7d")

/-- A method set with every standard method enabled. -/
def allMethods : MethodSet := ⟨true, true, true, true, true, true, true⟩

/-- Example resource: a parentless Book. -/
def bookNoParent : ParsedResource :=
  .mk "Book" "books" "bookstore.example.com/book" [⟨"isbn", .string, 3⟩] []
    (some allMethods)

/-- Example resource: a parentless Shelf. -/
def shelf : ParsedResource :=
  .mk "Shelf" "shelves" "bookstore.example.com/shelf" [] [] (some allMethods)

/-- Example resource: a Book whose parent is a parentless Shelf (depth 1). -/
def bookUnderShelf : ParsedResource :=
  .mk "Book" "books" "bookstore.example.com/book" [] [shelf] (some allMethods)

/-- Example resource: a parentless Store. -/
def store : ParsedResource :=
  .mk "Store" "stores" "bookstore.example.com/store" [] [] (some allMethods)

/-- Example resource: a Shelf whose parent is a Store. -/
def shelfUnderStore : ParsedResource :=
  .mk "Shelf" "shelves" "bookstore.example.com/shelf" [] [store] (some allMethods)

/-- Example resource: a Book under a Shelf under a Store (ancestor depth 2). -/
def deepBook : ParsedResource :=
  .mk "Book" "books" "bookstore.example.com/book" [] [shelfUnderStore]
    (some allMethods)

/-- Reserved structural field name for `parent`.
Modelled from the spec: the `constants` package is not under `src/`; §6
fixes the names and reserves parent=1, id=2, path=1; the remaining numbers
are project-wide fixed constants, chosen here once and reused verbatim. -/
def FIELD_PARENT_NAME : String := "parent"

/-- Modelled from the spec: reserved field number for `parent` (§6: 1). -/
def FIELD_PARENT_NUMBER : Nat := 1

/-- Modelled from the spec: reserved structural field name `id`. -/
def FIELD_ID_NAME : String := "id"

/-- Modelled from the spec: reserved field number for `id` (§6: 2). -/
def FIELD_ID_NUMBER : Nat := 2

/-- Modelled from the spec: reserved structural field name `path`. -/
def FIELD_PATH_NAME : String := "path"

/-- Modelled from the spec: reserved field number for `path` (§6: 1). -/
def FIELD_PATH_NUMBER : Nat := 1

/-- Modelled from the spec: fixed number of the embedded resource field,
distinct from path and parent. -/
def FIELD_RESOURCE_NUMBER : Nat := 3

/-- Modelled from the spec: reserved structural field name `update_mask`. -/
def FIELD_UPDATE_MASK_NAME : String := "update_mask"

/-- Modelled from the spec: fixed number of the `update_mask` field. -/
def FIELD_UPDATE_MASK_NUMBER : Nat := 4

/-- Modelled from the spec: reserved structural field name `page_token`. -/
def FIELD_PAGE_TOKEN_NAME : String := "page_token"

/-- Modelled from the spec: fixed number of the `page_token` field. -/
def FIELD_PAGE_TOKEN_NUMBER : Nat := 5

/-- Modelled from the spec: reserved structural field name `max_page_size`. -/
def FIELD_MAX_PAGE_SIZE_NAME : String := "max_page_size"

/-- Modelled from the spec: fixed number of the `max_page_size` field. -/
def FIELD_MAX_PAGE_SIZE_NUMBER : Nat := 6

/-- Modelled from the spec: fixed number of the repeated `results` field. -/
def FIELD_RESOURCES_NUMBER : Nat := 1

/-- Modelled from the spec: reserved structural field name `next_page_token`. -/
def FIELD_NEXT_PAGE_TOKEN_NAME : String := "next_page_token"

/-- Modelled from the spec: fixed number of the `next_page_token` field. -/
def FIELD_NEXT_PAGE_TOKEN_NUMBER : Nat := 2

/-- The protobuf type carried by a generated field (the fragment of the
protoreflect builder's FieldType this compiler uses).  Message types are
referenced by name, never duplicated; `importedMessage none` models an
imported descriptor that is nil because its load failed. -/
inductive ProtoFieldType where
  | string
  | int32
  | int64
  | boolean
  | double
  | float
  | message (name : String)
  | importedMessage (name : Option String)
deriving DecidableEq, Repr

/-- A generated protobuf field: name, type, number, leading comment, the
required-field behavior marker, the resource-reference option
(`some none` is an unconstrained reference, `some (some t)` references
resource type `t`), and the repeated marker. -/
structure GeneratedField where
  name : String
  ftype : ProtoFieldType
  number : Nat
  comment : String
  required : Bool := false
  resourceRef : Option (Option String) := none
  repeated : Bool := false
deriving DecidableEq, Repr

/-- A generated protobuf message: name, leading comment and fields in the
order the builder's AddField appended them. -/
structure GeneratedMessage where
  name : String
  comment : String
  fields : List GeneratedField := []
deriving DecidableEq, Repr

/-- The builder's AddField: appends one field. -/
def GeneratedMessage.addField (mb : GeneratedMessage) (f : GeneratedField) :
    GeneratedMessage :=
  { mb with fields := mb.fields ++ [f] }

/-- The HTTP rule pattern: a verb together with its path template. -/
inductive HttpPattern where
  | get (path : String)
  | post (path : String)
  | patch (path : String)
  | put (path : String)
  | delete (path : String)
deriving DecidableEq, Repr

/-- The google.api.http rule attached to a method: pattern and body field
(empty string when the rule sets no body, as in Go's zero value). -/
structure HttpRule where
  pattern : HttpPattern
  body : String := ""
deriving DecidableEq, Repr

/-- Reference to a method input/output message: one built in this file, or
an imported well-known descriptor. -/
inductive MsgRef where
  | named (n : String)
  | imported (n : String)
deriving DecidableEq, Repr

/-- A generated RPC method with its protocol-level options. -/
structure GeneratedMethod where
  name : String
  input : MsgRef
  output : MsgRef
  comment : String := ""
  http : Option HttpRule := none
  signature : Option (List String) := none
deriving DecidableEq, Repr

/-- The file accumulator (`builder.FileBuilder`): the growing message set. -/
structure FileBuilder where
  messages : List GeneratedMessage := []
deriving DecidableEq, Repr

/-- The builder's AddMessage: appends one message. -/
def FileBuilder.addMessage (fb : FileBuilder) (m : GeneratedMessage) : FileBuilder :=
  { fb with messages := fb.messages ++ [m] }

/-- The service accumulator (`builder.ServiceBuilder`): the RPC method set. -/
structure ServiceBuilder where
  methods : List GeneratedMethod := []
deriving DecidableEq, Repr

/-- The builder's AddMethod: appends one method. -/
def ServiceBuilder.addMethod (sb : ServiceBuilder) (m : GeneratedMethod) :
    ServiceBuilder :=
  { sb with methods := sb.methods ++ [m] }

/-- Environment for the two external descriptor loads.  `fieldMask` is the
descriptor returned by LoadMessageDescriptorForType for the field-mask type
with its error discarded by the caller (`none` models a failed load and
hence a nil descriptor); `emptyMsg` is LoadMessageDescriptor for
google.protobuf.Empty, whose error the caller propagates. -/
structure DescEnv where
  fieldMask : Option String
  emptyMsg : Except String String
deriving Repr

/-- Outcome of one generator call: normal return with the mutated builders,
an error return (the builders keep every mutation made before the error, as
in Go), or divergence of the path-generation loop, in which case the Go
program never returns and no state is observable. -/
inductive GenResult where
  | diverge : GenResult
  | err : String → FileBuilder → ServiceBuilder → GenResult
  | ok : FileBuilder → ServiceBuilder → GenResult
deriving DecidableEq, Repr

/-- Sequencing of generator calls as done by AddResource: an error or
divergence short-circuits, a normal return feeds the builders onward. -/
def GenResult.andThen (g : GenResult)
    (k : FileBuilder → ServiceBuilder → GenResult) : GenResult :=
  match g with
  | .diverge => .diverge
  | .err e fb sb => .err e fb sb
  | .ok fb sb => k fb sb

/-- The error returned by a generator call, if any. -/
def GenResult.errMsg : GenResult → Option String
  | .diverge => none
  | .err e _ _ => some e
  | .ok _ _ => none

/-- The accumulator state observable when the call returns (normally or
with an error); `none` when the call diverges. -/
def GenResult.state : GenResult → Option (FileBuilder × ServiceBuilder)
  | .diverge => none
  | .err _ fb sb => some (fb, sb)
  | .ok fb sb => some (fb, sb)

/-- Names of the messages in the file accumulator at return time. -/
def GenResult.messageNames (g : GenResult) : Option (List String) :=
  g.state.map fun s => s.1.messages.map GeneratedMessage.name

/-- Names of the methods in the service accumulator at return time. -/
def GenResult.methodNames (g : GenResult) : Option (List String) :=
  g.state.map fun s => s.2.methods.map GeneratedMethod.name

/-- HTTP rules of the methods in the service accumulator at return time. -/
def GenResult.methodHttp (g : GenResult) : Option (List (Option HttpRule)) :=
  g.state.map fun s => s.2.methods.map GeneratedMethod.http

/-- `addParentField` from resource.go: a required string field named
`parent` at the reserved parent number, carrying an unconstrained resource
reference. -/
def addParentField (r : ParsedResource) (mb : GeneratedMessage) : GeneratedMessage :=
  mb.addField
    { name := FIELD_PARENT_NAME
      ftype := .string
      number := FIELD_PARENT_NUMBER
      comment := "A field for the parent of " ++ r.kind
      required := true
      resourceRef := some none }

/-- `addIdField` from resource.go: a string field named `id` at the
reserved id number.  The Go Sprintf passes `r.Kind` with no matching verb,
so fmt appends an EXTRA diagnostic to the comment; kept verbatim. -/
def addIdField (r : ParsedResource) (mb : GeneratedMessage) : GeneratedMessage :=
  mb.addField
    { name := FIELD_ID_NAME
      ftype := .string
      number := FIELD_ID_NUMBER
      comment :=
        "An id that uniquely identifies the resource within the collection%!(EXTRA string="
          ++ r.kind ++ ")" }

/-- `addPathField` from resource.go: a required string field named `path`
at the reserved path number, with a resource reference constrained to the
resource's type. -/
def addPathField (r : ParsedResource) (mb : GeneratedMessage) : GeneratedMessage :=
  mb.addField
    { name := FIELD_PATH_NAME
      ftype := .string
      number := FIELD_PATH_NUMBER
      comment := "The globally unique identifier for the resource"
      required := true
      resourceRef := some (some r.rtype) }

/-- `addResourceField` from resource.go: a required field named after the
lowercased kind, embedding the resource message by reference, at the fixed
resource number. -/
def addResourceField (r : ParsedResource) (resourceMb mb : GeneratedMessage) :
    GeneratedMessage :=
  mb.addField
    { name := toLowerStr r.kind
      ftype := .message resourceMb.name
      number := FIELD_RESOURCE_NUMBER
      comment := "The resource to perform the operation on."
      required := true }

/-- `addResourcesField` from resource.go: the repeated `results` field
embedding the resource message by reference, at the fixed results number. -/
def addResourcesField (r : ParsedResource) (resourceMb mb : GeneratedMessage) :
    GeneratedMessage :=
  mb.addField
    { name := "results"
      ftype := .message resourceMb.name
      number := FIELD_RESOURCES_NUMBER
      comment := "A list of " ++ r.plural
      repeated := true }

/-- `addPageToken` from resource.go. -/
def addPageToken (r : ParsedResource) (mb : GeneratedMessage) : GeneratedMessage :=
  mb.addField
    { name := FIELD_PAGE_TOKEN_NAME
      ftype := .string
      number := FIELD_PAGE_TOKEN_NUMBER
      comment := "The page token indicating the starting point of the page" }

/-- `addNextPageToken` from resource.go. -/
def addNextPageToken (r : ParsedResource) (mb : GeneratedMessage) : GeneratedMessage :=
  mb.addField
    { name := FIELD_NEXT_PAGE_TOKEN_NAME
      ftype := .string
      number := FIELD_NEXT_PAGE_TOKEN_NUMBER
      comment := "The page token indicating the ending point of this response." }

/-- The Create request message built by AddCreate: parent, id and the
embedded resource. -/
def createRequestMessage (r : ParsedResource) (resourceMb : GeneratedMessage) :
    GeneratedMessage :=
  addResourceField r resourceMb (addIdField r (addParentField r
    { name := "Create" ++ r.kind ++ "Request"
      comment := "A Create request for a  " ++ r.kind ++ " resource." }))

/-- The Get request message built by AddGet: the path field only. -/
def getRequestMessage (r : ParsedResource) : GeneratedMessage :=
  addPathField r
    { name := "Get" ++ r.kind ++ "Request"
      comment := "Request message for the Get" ++ r.kind ++ " method" }

/-- The Update request message built by AddUpdate: path, embedded resource
and the update-mask field, whose type is the externally loaded field-mask
descriptor (nil when its load failed, since AddUpdate drops that error). -/
def updateRequestMessage (env : DescEnv) (r : ParsedResource)
    (resourceMb : GeneratedMessage) : GeneratedMessage :=
  (addResourceField r resourceMb (addPathField r
    { name := "Update" ++ r.kind ++ "Request"
      comment := "Request message for the Update" ++ r.kind ++ " method" })).addField
    { name := FIELD_UPDATE_MASK_NAME
      ftype := .importedMessage env.fieldMask
      number := FIELD_UPDATE_MASK_NUMBER
      comment := "The update mask for the resource" }

/-- The Delete request message built by AddDelete: the path field only. -/
def deleteRequestMessage (r : ParsedResource) : GeneratedMessage :=
  addPathField r
    { name := "Delete" ++ r.kind ++ "Request"
      comment := "Request message for the Delete" ++ r.kind ++ " method" }

/-- The List request message built by AddList: parent, page token and the
max-page-size field. -/
def listRequestMessage (r : ParsedResource) : GeneratedMessage :=
  (addPageToken r (addParentField r
    { name := "List" ++ r.kind ++ "Request"
      comment := "Request message for the List" ++ r.kind ++ " method" })).addField
    { name := FIELD_MAX_PAGE_SIZE_NAME
      ftype := .int32
      number := FIELD_MAX_PAGE_SIZE_NUMBER
      comment := "The maximum number of resources to return in a single page." }

/-- The List response message built by AddList: results and next page token. -/
def listResponseMessage (r : ParsedResource) (resourceMb : GeneratedMessage) :
    GeneratedMessage :=
  addNextPageToken r (addResourcesField r resourceMb
    { name := "List" ++ r.kind ++ "Response"
      comment := "Response message for the List" ++ r.kind ++ " method" })

/-- The GlobalList request message built by AddGlobalList: path and page token. -/
def globalListRequestMessage (r : ParsedResource) : GeneratedMessage :=
  addPageToken r (addPathField r
    { name := "GlobalList" ++ r.kind ++ "Request"
      comment := "Request message for the GlobalList" ++ r.kind ++ " method" })

/-- The GlobalList response message built by AddGlobalList. -/
def globalListResponseMessage (r : ParsedResource) (resourceMb : GeneratedMessage) :
    GeneratedMessage :=
  addNextPageToken r (addResourcesField r resourceMb
    { name := "GlobalList" ++ r.kind ++ "Response"
      comment := "Response message for the GlobalList" ++ r.kind ++ " method" })

/-- The Apply request message built by AddApply: path and embedded resource. -/
def applyRequestMessage (r : ParsedResource) (resourceMb : GeneratedMessage) :
    GeneratedMessage :=
  addResourceField r resourceMb (addPathField r
    { name := "Apply" ++ r.kind ++ "Request"
      comment := "Request message for the Apply" ++ r.kind ++ " method" })

/-- `AddCreate` from resource.go: registers the Create request message and
the Create method, whose HTTP rule posts to the parent capture path with
the lowercased kind as body, and whose method signature is
"parent,&lt;kind&gt;". -/
def AddCreate (fuel : Nat) (r : ParsedResource) (resourceMb : GeneratedMessage)
    (fb : FileBuilder) (sb : ServiceBuilder) : GenResult :=
  let mb := createRequestMessage r resourceMb
  let fb := fb.addMessage mb
  match generateParentHTTPPath fuel r with
  | none => .diverge
  | some postPath =>
    .ok fb (sb.addMethod
      { name := "Create" ++ r.kind
        input := .named mb.name
        output := .named resourceMb.name
        comment := "An aep-compliant Create method for " ++ r.kind ++ "."
        http := some { pattern := .post postPath, body := toLowerStr r.kind }
        signature := some [strJoin [FIELD_PARENT_NAME, toLowerStr r.kind] ","] })

/-- `AddGet` from resource.go: registers the Get request message and the
Get method, bound to GET on the resource's collection path capture. -/
def AddGet (fuel : Nat) (r : ParsedResource) (resourceMb : GeneratedMessage)
    (fb : FileBuilder) (sb : ServiceBuilder) : GenResult :=
  let mb := getRequestMessage r
  let fb := fb.addMessage mb
  match generateHTTPPath fuel r with
  | none => .diverge
  | some path =>
    .ok fb (sb.addMethod
      { name := "Get" ++ r.kind
        input := .named mb.name
        output := .named resourceMb.name
        comment := "An aep-compliant Get method for " ++ r.kind ++ "."
        http := some { pattern := .get ("/\x7bpath=" ++ path ++ "\x7d") }
        signature := some [strJoin [FIELD_PATH_NAME] ","] })

/-- `AddUpdate` from resource.go: registers the Update request message and
the Update method (PATCH on the resource path, body = lowercased kind).
The field-mask descriptor load error is discarded by the Go code, so this
generator never fails. -/
def AddUpdate (env : DescEnv) (fuel : Nat) (r : ParsedResource)
    (resourceMb : GeneratedMessage) (fb : FileBuilder) (sb : ServiceBuilder) :
    GenResult :=
  let mb := updateRequestMessage env r resourceMb
  let fb := fb.addMessage mb
  match generateHTTPPath fuel r with
  | none => .diverge
  | some path =>
    .ok fb (sb.addMethod
      { name := "Update" ++ r.kind
        input := .named mb.name
        output := .named resourceMb.name
        comment := "An aep-compliant Update method for " ++ r.kind ++ "."
        http := some
          { pattern := .patch ("/\x7b" ++ toLowerStr r.kind ++ ".path=" ++ path ++ "\x7d")
            body := toLowerStr r.kind }
        signature := some [strJoin [toLowerStr r.kind, FIELD_UPDATE_MASK_NAME] ","] })

/-- `AddDelete` from resource.go: registers the Delete request message,
then loads the google.protobuf.Empty descriptor; a load error is returned
as-is (the request message stays registered).  On success the Delete
method (DELETE on the resource path, Empty output) is registered. -/
def AddDelete (env : DescEnv) (fuel : Nat) (r : ParsedResource)
    (resourceMb : GeneratedMessage) (fb : FileBuilder) (sb : ServiceBuilder) :
    GenResult :=
  let mb := deleteRequestMessage r
  let fb := fb.addMessage mb
  match env.emptyMsg with
  | .error e => .err e fb sb
  | .ok emptyName =>
    match generateHTTPPath fuel r with
    | none => .diverge
    | some path =>
      .ok fb (sb.addMethod
        { name := "Delete" ++ r.kind
          input := .named mb.name
          output := .imported emptyName
          comment := "An aep-compliant Delete method for " ++ r.kind ++ "."
          http := some { pattern := .delete ("/\x7bpath=" ++ path ++ "\x7d") }
          signature := some [strJoin [FIELD_PATH_NAME] ","] })

/-- `AddList` from resource.go: registers the List request and response
messages and the List method, bound to GET on the parent capture path. -/
def AddList (fuel : Nat) (r : ParsedResource) (resourceMb : GeneratedMessage)
    (fb : FileBuilder) (sb : ServiceBuilder) : GenResult :=
  let reqMb := listRequestMessage r
  let fb := fb.addMessage reqMb
  let respMb := listResponseMessage r resourceMb
  let fb := fb.addMessage respMb
  match generateParentHTTPPath fuel r with
  | none => .diverge
  | some getPath =>
    .ok fb (sb.addMethod
      { name := "List" ++ r.kind
        input := .named reqMb.name
        output := .named respMb.name
        comment := "An aep-compliant List method for " ++ r.plural ++ "."
        http := some { pattern := .get getPath }
        signature := some [strJoin [FIELD_PARENT_NAME] ","] })

/-- `AddGlobalList` from resource.go: registers the GlobalList request and
response messages and the GlobalList method (GET on a wildcard-parent path
built from the lowercased kind); it sets no comment and no signature. -/
def AddGlobalList (r : ParsedResource) (resourceMb : GeneratedMessage)
    (fb : FileBuilder) (sb : ServiceBuilder) : GenResult :=
  let reqMb := globalListRequestMessage r
  let fb := fb.addMessage reqMb
  let respMb := globalListResponseMessage r resourceMb
  let fb := fb.addMessage respMb
  .ok fb (sb.addMethod
    { name := "GlobalList" ++ r.kind
      input := .named reqMb.name
      output := .named respMb.name
      http := some { pattern := .get ("/\x7bpath=--/" ++ toLowerStr r.kind ++ "\x7d") } })

/-- `AddApply` from resource.go: registers the Apply request message and
the Apply method (PUT on the resource path, body = lowercased kind); it
sets no method signature. -/
def AddApply (fuel : Nat) (r : ParsedResource) (resourceMb : GeneratedMessage)
    (fb : FileBuilder) (sb : ServiceBuilder) : GenResult :=
  let mb := applyRequestMessage r resourceMb
  let fb := fb.addMessage mb
  match generateHTTPPath fuel r with
  | none => .diverge
  | some path =>
    .ok fb (sb.addMethod
      { name := "Apply" ++ r.kind
        input := .named mb.name
        output := .named resourceMb.name
        comment := "An aep-compliant Apply method for " ++ r.plural ++ "."
        http := some
          { pattern := .put ("/\x7bpath=" ++ path ++ "\x7d")
            body := toLowerStr r.kind } })

/-- `GetFieldsSortedByNumber` of parser.ParsedResource.
Modelled from the spec: the `parser` package is not under `src/`; the spec
says the fields form an ordered-by-number sequence and that generation
iterates them in field-number order. -/
def ParsedResource.GetFieldsSortedByNumber (r : ParsedResource) : List FieldSchema :=
  List.insertionSort (fun a b => a.number ≤ b.number) r.fields

/-- The scalar type switch inside GeneratedResourceMessage: maps a schema
type to the proto field type, or fails naming the offending type. -/
def mapScalar (t : SchemaType) : Except String ProtoFieldType :=
  match t with
  | .string => .ok .string
  | .int32 => .ok .int32
  | .int64 => .ok .int64
  | .boolean => .ok .boolean
  | .double => .ok .double
  | .float => .ok .float
  | .unspecified =>
    .error ("proto mapping for type " ++ SchemaType.name .unspecified ++ " not found")

/-- The generated field for one schema field: name and number verbatim. -/
def genField (p : FieldSchema) (t : ProtoFieldType) : GeneratedField :=
  { name := p.name
    ftype := t
    number := p.number
    comment := "Field for " ++ p.name ++ "." }

/-- The field loop of GeneratedResourceMessage: maps each schema field in
order and fails on the first field whose type has no proto mapping. -/
def buildResourceFields : List FieldSchema → Except String (List GeneratedField)
  | [] => .ok []
  | p :: ps =>
    match mapScalar p.type with
    | .error e => .error e
    | .ok t =>
      match buildResourceFields ps with
      | .error e => .error e
      | .ok fs => .ok (genField p t :: fs)

/-- `GeneratedResourceMessage` from resource.go: one message named after
the kind with one generated field per schema field, iterated in
field-number order; its leading comment is set later by AddResource. -/
def GeneratedResourceMessage (r : ParsedResource) : Except String GeneratedMessage :=
  match buildResourceFields r.GetFieldsSortedByNumber with
  | .error e => .error e
  | .ok fs => .ok { name := r.kind, comment := "", fields := fs }

/-- `AddResource` from resource.go: generates the resource message (a
failure is wrapped naming the kind and returned with the builders
untouched), registers it, then runs each enabled per-method generator in
the fixed order Create, Read, Update, Delete, List, GlobalList, Apply,
stopping at the first error. -/
def AddResource (env : DescEnv) (fuel : Nat) (r : ParsedResource)
    (fb : FileBuilder) (sb : ServiceBuilder) : GenResult :=
  match GeneratedResourceMessage r with
  | .error e =>
    .err ("unable to generate resource " ++ r.kind ++ ": " ++ e) fb sb
  | .ok resourceMb0 =>
    let resourceMb := { resourceMb0 with comment := "A " ++ r.kind ++ " resource." }
    let fb := fb.addMessage resourceMb
    match r.methods with
    | none => .ok fb sb
    | some m =>
      (if m.create then AddCreate fuel r resourceMb fb sb else .ok fb sb).andThen fun fb sb =>
      (if m.read then AddGet fuel r resourceMb fb sb else .ok fb sb).andThen fun fb sb =>
      (if m.update then AddUpdate env fuel r resourceMb fb sb else .ok fb sb).andThen fun fb sb =>
      (if m.delete then AddDelete env fuel r resourceMb fb sb else .ok fb sb).andThen fun fb sb =>
      (if m.list then AddList fuel r resourceMb fb sb else .ok fb sb).andThen fun fb sb =>
      (if m.globalList then AddGlobalList r resourceMb fb sb else .ok fb sb).andThen fun fb sb =>
      (if m.apply then AddApply fuel r resourceMb fb sb else .ok fb sb)

/-- Sufficient and necessary condition for `generateHTTPPath` to
terminate: the resource has no parents, or its first parent has none. -/
def pathTerminates (r : ParsedResource) : Bool :=
  match r.parents with
  | [] => true
  | p :: _ => p.parents.isEmpty

/-- Condition for `generateParentHTTPPath` to terminate: no parents, or
the first parent's own collection path terminates. -/
def parentPathTerminates (r : ParsedResource) : Bool :=
  match r.parents with
  | [] => true
  | p :: _ => pathTerminates p

/-- Closed form of the collection path in the terminating cases. -/
def collectionPathStr (r : ParsedResource) : String :=
  match r.parents with
  | [] => toLowerStr r.plural ++ "/*"
  | p :: _ => toLowerStr p.plural ++ "/*/" ++ toLowerStr r.plural ++ "/*"

/-- Closed form of the parent capture path in the terminating cases. -/
def parentPathStr (r : ParsedResource) : String :=
  match r.parents with
  | [] => "/\x7bparent=" ++ toLowerStr r.plural ++ "\x7d"
  | p :: _ => "/\x7bparent=" ++ collectionPathStr p ++ toLowerStr r.plural ++ "\x7d"

/-- The Create method as registered by AddCreate (terminating case). -/
def createMethodOf (r : ParsedResource) (resourceMb : GeneratedMessage) :
    GeneratedMethod :=
  { name := "Create" ++ r.kind
    input := .named ("Create" ++ r.kind ++ "Request")
    output := .named resourceMb.name
    comment := "An aep-compliant Create method for " ++ r.kind ++ "."
    http := some { pattern := .post (parentPathStr r), body := toLowerStr r.kind }
    signature := some [strJoin [FIELD_PARENT_NAME, toLowerStr r.kind] ","] }

/-- The Get method as registered by AddGet (terminating case). -/
def getMethodOf (r : ParsedResource) (resourceMb : GeneratedMessage) :
    GeneratedMethod :=
  { name := "Get" ++ r.kind
    input := .named ("Get" ++ r.kind ++ "Request")
    output := .named resourceMb.name
    comment := "An aep-compliant Get method for " ++ r.kind ++ "."
    http := some { pattern := .get ("/\x7bpath=" ++ collectionPathStr r ++ "\x7d") }
    signature := some [strJoin [FIELD_PATH_NAME] ","] }

/-- The Update method as registered by AddUpdate (terminating case). -/
def updateMethodOf (r : ParsedResource) (resourceMb : GeneratedMessage) :
    GeneratedMethod :=
  { name := "Update" ++ r.kind
    input := .named ("Update" ++ r.kind ++ "Request")
    output := .named resourceMb.name
    comment := "An aep-compliant Update method for " ++ r.kind ++ "."
    http := some
      { pattern := .patch
          ("/\x7b" ++ toLowerStr r.kind ++ ".path=" ++ collectionPathStr r ++ "\x7d")
        body := toLowerStr r.kind }
    signature := some [strJoin [toLowerStr r.kind, FIELD_UPDATE_MASK_NAME] ","] }

/-- The Delete method as registered by AddDelete (successful load,
terminating case). -/
def deleteMethodOf (r : ParsedResource) (emptyName : String) : GeneratedMethod :=
  { name := "Delete" ++ r.kind
    input := .named ("Delete" ++ r.kind ++ "Request")
    output := .imported emptyName
    comment := "An aep-compliant Delete method for " ++ r.kind ++ "."
    http := some { pattern := .delete ("/\x7bpath=" ++ collectionPathStr r ++ "\x7d") }
    signature := some [strJoin [FIELD_PATH_NAME] ","] }

/-- The List method as registered by AddList (terminating case). -/
def listMethodOf (r : ParsedResource) : GeneratedMethod :=
  { name := "List" ++ r.kind
    input := .named ("List" ++ r.kind ++ "Request")
    output := .named ("List" ++ r.kind ++ "Response")
    comment := "An aep-compliant List method for " ++ r.plural ++ "."
    http := some { pattern := .get (parentPathStr r) }
    signature := some [strJoin [FIELD_PARENT_NAME] ","] }

/-- The GlobalList method as registered by AddGlobalList. -/
def globalListMethodOf (r : ParsedResource) : GeneratedMethod :=
  { name := "GlobalList" ++ r.kind
    input := .named ("GlobalList" ++ r.kind ++ "Request")
    output := .named ("GlobalList" ++ r.kind ++ "Response")
    http := some { pattern := .get ("/\x7bpath=--/" ++ toLowerStr r.kind ++ "\x7d") } }

/-- The Apply method as registered by AddApply (terminating case). -/
def applyMethodOf (r : ParsedResource) (resourceMb : GeneratedMessage) :
    GeneratedMethod :=
  { name := "Apply" ++ r.kind
    input := .named ("Apply" ++ r.kind ++ "Request")
    output := .named resourceMb.name
    comment := "An aep-compliant Apply method for " ++ r.plural ++ "."
    http := some
      { pattern := .put ("/\x7bpath=" ++ collectionPathStr r ++ "\x7d")
        body := toLowerStr r.kind } }

/-- Whether an Except result is a success. -/
def isOkE {ε α : Type} : Except ε α → Bool
  | .ok _ => true
  | .error _ => false

/-- Every field of the schema has a proto mapping. -/
def fieldsMapped (r : ParsedResource) : Bool :=
  r.fields.all fun f => isOkE (mapScalar f.type)

/-- Totalized scalar mapping, agreeing with `mapScalar` on mapped types. -/
def mapScalarD (t : SchemaType) : ProtoFieldType :=
  match mapScalar t with
  | .ok u => u
  | .error _ => .string

/-- The resource message AddResource registers on success: kind-named, the
"A &lt;kind&gt; resource." comment, one generated field per schema field in
field-number order. -/
def resourceMessageOf (r : ParsedResource) : GeneratedMessage :=
  { name := r.kind
    comment := "A " ++ r.kind ++ " resource."
    fields := r.GetFieldsSortedByNumber.map fun p => genField p (mapScalarD p.type) }

/-- The request/response messages AddResource registers after the resource
message itself, per enabled method, in generator order. -/
def expectedMessages (env : DescEnv) (r : ParsedResource) (m : MethodSet)
    (resourceMb : GeneratedMessage) : List GeneratedMessage :=
  (if m.create then [createRequestMessage r resourceMb] else []) ++
  (if m.read then [getRequestMessage r] else []) ++
  (if m.update then [updateRequestMessage env r resourceMb] else []) ++
  (if m.delete then [deleteRequestMessage r] else []) ++
  (if m.list then [listRequestMessage r, listResponseMessage r resourceMb] else []) ++
  (if m.globalList then
    [globalListRequestMessage r, globalListResponseMessage r resourceMb] else []) ++
  (if m.apply then [applyRequestMessage r resourceMb] else [])

/-- The RPC methods AddResource registers, one per enabled method, in
generator order. -/
def expectedMethods (r : ParsedResource) (m : MethodSet)
    (resourceMb : GeneratedMessage) (emptyName : String) : List GeneratedMethod :=
  (if m.create then [createMethodOf r resourceMb] else []) ++
  (if m.read then [getMethodOf r resourceMb] else []) ++
  (if m.update then [updateMethodOf r resourceMb] else []) ++
  (if m.delete then [deleteMethodOf r emptyName] else []) ++
  (if m.list then [listMethodOf r] else []) ++
  (if m.globalList then [globalListMethodOf r] else []) ++
  (if m.apply then [applyMethodOf r resourceMb] else [])

instance : IsTotal FieldSchema fun a b => a.number ≤ b.number :=
  ⟨fun a b => Nat.le_total a.number b.number⟩

instance : IsTrans FieldSchema fun a b => a.number ≤ b.number :=
  ⟨fun _ _ _ hab hbc => Nat.le_trans hab hbc⟩

/-- An environment in which both external descriptor loads succeed. -/
def envOK : DescEnv :=
  ⟨some "google.protobuf.FieldMask", .ok "google.protobuf.Empty"⟩

/-- An environment in which both external descriptor loads fail: the
field-mask load yields a nil descriptor and the empty-message load yields
the error "load failed". -/
def envFail : DescEnv := ⟨none, .error "load failed"⟩

/-- Example resource whose single field has a type with no proto mapping. -/
def badBook : ParsedResource :=
  .mk "Book" "books" "bookstore.example.com/book" [⟨"isbn", .unspecified, 3⟩] []
    (some allMethods)

/-- When the first parent has parents of its own, the loop in
`generateHTTPPath` never terminates: `p` is never advanced, so the exit
condition `len(p.Parents) == 0` can never become true. -/
theorem httpPathLoop_none_of_parents_ne_nil (p : ParsedResource)
    (h : p.parents ≠ []) :
    ∀ (fuel : Nat) (elements : List String), httpPathLoop p fuel elements = none := by
  intro fuel
  induction fuel with
  | zero => intro elements; rfl
  | succ n ih =>
    intro elements
    simp only [httpPathLoop]
    rw [if_neg (by simpa [List.isEmpty_iff] using h)]
    exact ih _

theorem generateHTTPPath_eq (fuel : Nat) (r : ParsedResource)
    (h : pathTerminates r = true) (hfuel : 1 ≤ fuel) :
    generateHTTPPath fuel r = some (collectionPathStr r) := by
  obtain ⟨n, rfl⟩ : ∃ n, fuel = n + 1 := ⟨fuel - 1, by omega⟩
  match hp : r.parents with
  | [] =>
    simp [generateHTTPPath, collectionPathStr, hp, strJoin]
  | p :: rest =>
    have hpp : p.parents.isEmpty = true := by
      simpa [pathTerminates, hp] using h
    simp [generateHTTPPath, collectionPathStr, hp, httpPathLoop, hpp, strJoin,
      String.append_assoc]

theorem generateParentHTTPPath_eq (fuel : Nat) (r : ParsedResource)
    (h : parentPathTerminates r = true) (hfuel : 1 ≤ fuel) :
    generateParentHTTPPath fuel r = some (parentPathStr r) := by
  match hp : r.parents with
  | [] => simp [generateParentHTTPPath, parentPathStr, hp]
  | p :: rest =>
    have hpt : pathTerminates p = true := by
      simpa [parentPathTerminates, hp] using h
    simp [generateParentHTTPPath, parentPathStr, hp,
      generateHTTPPath_eq fuel p hpt hfuel, String.append_assoc]

theorem AddCreate_eq (fuel : Nat) (r : ParsedResource)
    (h : parentPathTerminates r = true) (hfuel : 1 ≤ fuel)
    (resourceMb : GeneratedMessage) (fb : FileBuilder) (sb : ServiceBuilder) :
    AddCreate fuel r resourceMb fb sb
      = .ok ⟨fb.messages ++ [createRequestMessage r resourceMb]⟩
          ⟨sb.methods ++ [createMethodOf r resourceMb]⟩ := by
  simp [AddCreate, generateParentHTTPPath_eq fuel r h hfuel, createMethodOf,
    createRequestMessage, FileBuilder.addMessage, ServiceBuilder.addMethod,
    addResourceField, addIdField, addParentField, GeneratedMessage.addField]

theorem AddGet_eq (fuel : Nat) (r : ParsedResource)
    (h : pathTerminates r = true) (hfuel : 1 ≤ fuel)
    (resourceMb : GeneratedMessage) (fb : FileBuilder) (sb : ServiceBuilder) :
    AddGet fuel r resourceMb fb sb
      = .ok ⟨fb.messages ++ [getRequestMessage r]⟩
          ⟨sb.methods ++ [getMethodOf r resourceMb]⟩ := by
  simp [AddGet, generateHTTPPath_eq fuel r h hfuel, getMethodOf,
    getRequestMessage, FileBuilder.addMessage, ServiceBuilder.addMethod,
    addPathField, GeneratedMessage.addField]

theorem AddUpdate_eq (env : DescEnv) (fuel : Nat) (r : ParsedResource)
    (h : pathTerminates r = true) (hfuel : 1 ≤ fuel)
    (resourceMb : GeneratedMessage) (fb : FileBuilder) (sb : ServiceBuilder) :
    AddUpdate env fuel r resourceMb fb sb
      = .ok ⟨fb.messages ++ [updateRequestMessage env r resourceMb]⟩
          ⟨sb.methods ++ [updateMethodOf r resourceMb]⟩ := by
  simp [AddUpdate, generateHTTPPath_eq fuel r h hfuel, updateMethodOf,
    updateRequestMessage, FileBuilder.addMessage, ServiceBuilder.addMethod,
    addResourceField, addPathField, GeneratedMessage.addField]

theorem AddDelete_eq (env : DescEnv) (fuel : Nat) (r : ParsedResource)
    (emptyName : String) (he : env.emptyMsg = .ok emptyName)
    (h : pathTerminates r = true) (hfuel : 1 ≤ fuel)
    (resourceMb : GeneratedMessage) (fb : FileBuilder) (sb : ServiceBuilder) :
    AddDelete env fuel r resourceMb fb sb
      = .ok ⟨fb.messages ++ [deleteRequestMessage r]⟩
          ⟨sb.methods ++ [deleteMethodOf r emptyName]⟩ := by
  simp [AddDelete, he, generateHTTPPath_eq fuel r h hfuel, deleteMethodOf,
    deleteRequestMessage, FileBuilder.addMessage, ServiceBuilder.addMethod,
    addPathField, GeneratedMessage.addField]

theorem AddList_eq (fuel : Nat) (r : ParsedResource)
    (h : parentPathTerminates r = true) (hfuel : 1 ≤ fuel)
    (resourceMb : GeneratedMessage) (fb : FileBuilder) (sb : ServiceBuilder) :
    AddList fuel r resourceMb fb sb
      = .ok ⟨fb.messages ++ [listRequestMessage r, listResponseMessage r resourceMb]⟩
          ⟨sb.methods ++ [listMethodOf r]⟩ := by
  simp [AddList, generateParentHTTPPath_eq fuel r h hfuel, listMethodOf,
    listRequestMessage, listResponseMessage, FileBuilder.addMessage,
    ServiceBuilder.addMethod, addParentField, addPageToken, addResourcesField,
    addNextPageToken, GeneratedMessage.addField]

theorem AddGlobalList_eq (r : ParsedResource) (resourceMb : GeneratedMessage)
    (fb : FileBuilder) (sb : ServiceBuilder) :
    AddGlobalList r resourceMb fb sb
      = .ok ⟨fb.messages
              ++ [globalListRequestMessage r, globalListResponseMessage r resourceMb]⟩
          ⟨sb.methods ++ [globalListMethodOf r]⟩ := by
  simp [AddGlobalList, globalListMethodOf, globalListRequestMessage,
    globalListResponseMessage, FileBuilder.addMessage, ServiceBuilder.addMethod,
    addPathField, addPageToken, addResourcesField, addNextPageToken,
    GeneratedMessage.addField]

theorem AddApply_eq (fuel : Nat) (r : ParsedResource)
    (h : pathTerminates r = true) (hfuel : 1 ≤ fuel)
    (resourceMb : GeneratedMessage) (fb : FileBuilder) (sb : ServiceBuilder) :
    AddApply fuel r resourceMb fb sb
      = .ok ⟨fb.messages ++ [applyRequestMessage r resourceMb]⟩
          ⟨sb.methods ++ [applyMethodOf r resourceMb]⟩ := by
  simp [AddApply, generateHTTPPath_eq fuel r h hfuel, applyMethodOf,
    applyRequestMessage, FileBuilder.addMessage, ServiceBuilder.addMethod,
    addResourceField, addPathField, GeneratedMessage.addField]

theorem buildResourceFields_ok (l : List FieldSchema)
    (h : ∀ f ∈ l, isOkE (mapScalar f.type) = true) :
    buildResourceFields l = .ok (l.map fun p => genField p (mapScalarD p.type)) := by
  induction l with
  | nil => rfl
  | cons p ps ih =>
    have hp : isOkE (mapScalar p.type) = true := h p (List.mem_cons_self p ps)
    have hps := ih fun f hf => h f (List.mem_cons_of_mem p hf)
    match hm : mapScalar p.type with
    | .error e => rw [hm] at hp; exact absurd hp (by simp [isOkE])
    | .ok t =>
      simp [buildResourceFields, hm, hps, mapScalarD]

theorem buildResourceFields_first_error (l : List FieldSchema)
    (h : ¬ (∀ f ∈ l, isOkE (mapScalar f.type) = true)) :
    ∃ t : SchemaType, (∃ f ∈ l, f.type = t) ∧ isOkE (mapScalar t) = false ∧
      buildResourceFields l
        = .error ("proto mapping for type " ++ SchemaType.name t ++ " not found") := by
  induction l with
  | nil => exact absurd (by simp) h
  | cons p ps ih =>
    match hm : mapScalar p.type with
    | .error e =>
      refine ⟨p.type, ⟨p, List.mem_cons_self p ps, rfl⟩, by simp [isOkE, hm], ?_⟩
      have he : e = "proto mapping for type " ++ SchemaType.name p.type ++ " not found" := by
        match ht : p.type with
        | .unspecified => rw [ht] at hm; simpa [mapScalar] using hm.symm
        | .string | .int32 | .int64 | .boolean | .double | .float =>
          rw [ht] at hm; simp [mapScalar] at hm
      simp [buildResourceFields, hm, he]
    | .ok t =>
      have hps : ¬ (∀ f ∈ ps, isOkE (mapScalar f.type) = true) := by
        intro hall
        exact h fun f hf => by
          rcases List.mem_cons.mp hf with rfl | hmem
          · simp [hm, isOkE]
          · exact hall f hmem
      obtain ⟨u, ⟨f, hf, hft⟩, hu, hb⟩ := ih hps
      exact ⟨u, ⟨f, List.mem_cons_of_mem p hf, hft⟩, hu,
        by simp [buildResourceFields, hm, hb]⟩

theorem fieldsMapped_sorted (r : ParsedResource) (h : fieldsMapped r = true) :
    ∀ f ∈ r.GetFieldsSortedByNumber, isOkE (mapScalar f.type) = true := by
  intro f hf
  have hmem : f ∈ r.fields :=
    (List.Perm.mem_iff (List.perm_insertionSort _ r.fields)).mp hf
  exact List.all_eq_true.mp h f hmem

theorem GeneratedResourceMessage_ok (r : ParsedResource)
    (h : fieldsMapped r = true) :
    GeneratedResourceMessage r
      = .ok { name := r.kind, comment := ""
              fields := r.GetFieldsSortedByNumber.map fun p =>
                genField p (mapScalarD p.type) } := by
  rw [GeneratedResourceMessage,
    buildResourceFields_ok _ (fieldsMapped_sorted r h)]

set_option maxHeartbeats 3200000 in
theorem AddResource_ok (env : DescEnv) (fuel : Nat) (r : ParsedResource)
    (m : MethodSet) (emptyName : String) (fb : FileBuilder) (sb : ServiceBuilder)
    (hm : r.methods = some m)
    (hf : fieldsMapped r = true)
    (he : env.emptyMsg = .ok emptyName)
    (hp : pathTerminates r = true)
    (hpp : parentPathTerminates r = true)
    (hfuel : 1 ≤ fuel) :
    AddResource env fuel r fb sb
      = .ok
          ⟨fb.messages
            ++ resourceMessageOf r
              :: expectedMessages env r m (resourceMessageOf r)⟩
          ⟨sb.methods ++ expectedMethods r m (resourceMessageOf r) emptyName⟩ := by
  have hg := GeneratedResourceMessage_ok r hf
  rcases m with ⟨c, re, u, d, li, g, a⟩
  cases c <;> cases re <;> cases u <;> cases d <;> cases li <;> cases g <;> cases a <;>
    simp [AddResource, hg, hm, GenResult.andThen,
      AddCreate_eq fuel r hpp hfuel, AddGet_eq fuel r hp hfuel,
      AddUpdate_eq env fuel r hp hfuel,
      AddDelete_eq env fuel r emptyName he hp hfuel,
      AddList_eq fuel r hpp hfuel, AddGlobalList_eq,
      AddApply_eq fuel r hp hfuel,
      expectedMessages, expectedMethods, resourceMessageOf,
      FileBuilder.addMessage, ServiceBuilder.addMethod, List.append_assoc]

/-- When the empty-message descriptor load fails, AddDelete returns the
load error unchanged, with the Delete request message already registered. -/
theorem AddDelete_err (env : DescEnv) (fuel : Nat) (r : ParsedResource)
    (e : String) (he : env.emptyMsg = .error e)
    (resourceMb : GeneratedMessage) (fb : FileBuilder) (sb : ServiceBuilder) :
    AddDelete env fuel r resourceMb fb sb
      = .err e ⟨fb.messages ++ [deleteRequestMessage r]⟩ sb := by
  simp [AddDelete, he, FileBuilder.addMessage, deleteRequestMessage]

/-- C1: the claim states that for every resource whose first-parent chain
has depth d, collectionPath (generateHTTPPath) terminates with d+1 wildcard
segments.  The code refutes this at depth 2: for deepBook (Book under
Shelf under Store) the loop never advances `p`, so generateHTTPPath never
terminates — the embedding returns none for every fuel bound. -/
theorem c1_collectionPath_depth_two_never_terminates :
    ∀ fuel : Nat, generateHTTPPath fuel deepBook = none := by
  intro fuel
  have h : shelfUnderStore.parents ≠ [] := by
    simp [shelfUnderStore, ParsedResource.parents, store]
  simp [generateHTTPPath, deepBook, ParsedResource.parents,
    httpPathLoop_none_of_parents_ne_nil shelfUnderStore h fuel]

/-- C2: the claim states that for Book under a parentless Shelf the List
binding path is "/(parent=shelves/*/books)" with a "/" separator.  The
code emits "/(parent=shelves/*books)": generateParentHTTPPath concatenates
the parent collection path and the plural with no separator, and that is
exactly the pattern AddList attaches to the List method. -/
theorem c2_list_binding_path_lacks_separator :
    generateParentHTTPPath 5 bookUnderShelf = some "/\x7bparent=shelves/*books\x7d" ∧
    (AddList 5 bookUnderShelf ⟨"Book", "", []⟩ ⟨[]⟩ ⟨[]⟩).methodHttp
      = some [some { pattern := .get "/\x7bparent=shelves/*books\x7d" }] ∧
    ("/\x7bparent=shelves/*books\x7d" : String) ≠ "/\x7bparent=shelves/*/books\x7d" := by
  refine ⟨by decide, by decide, by decide⟩

/-- C7: a resource with no parents (and an already-lowercase plural, as
all aepc plurals are) has collection path exactly plural followed by one
wildcard segment, and its Create method binds POST to
"/(parent=plural)" with no ancestor prefix. -/
theorem c7_parentless_resource_paths (fuel : Nat) (r : ParsedResource)
    (resourceMb : GeneratedMessage)
    (hp : r.parents = []) (hl : toLowerStr r.plural = r.plural) :
    generateHTTPPath fuel r = some (r.plural ++ "/*") ∧
    generateParentHTTPPath fuel r = some ("/\x7bparent=" ++ r.plural ++ "\x7d") ∧
    (AddCreate fuel r resourceMb ⟨[]⟩ ⟨[]⟩).methodHttp
      = some [some { pattern := .post ("/\x7bparent=" ++ r.plural ++ "\x7d")
                     body := toLowerStr r.kind }] := by
  refine ⟨?_, ?_, ?_⟩
  · simp [generateHTTPPath, hp, strJoin, hl]
  · simp [generateParentHTTPPath, hp, hl]
  · simp [AddCreate, generateParentHTTPPath, hp, hl, GenResult.methodHttp,
      GenResult.state, ServiceBuilder.addMethod]

/-- Witness for C7 at the concrete parentless Book resource. -/
theorem c7_witness :
    bookNoParent.parents = [] ∧ toLowerStr bookNoParent.plural = bookNoParent.plural ∧
    (generateHTTPPath 5 bookNoParent = some (bookNoParent.plural ++ "/*") ∧
     generateParentHTTPPath 5 bookNoParent
       = some ("/\x7bparent=" ++ bookNoParent.plural ++ "\x7d") ∧
     (AddCreate 5 bookNoParent ⟨"Book", "", []⟩ ⟨[]⟩ ⟨[]⟩).methodHttp
       = some [some { pattern := .post ("/\x7bparent=" ++ bookNoParent.plural ++ "\x7d")
                      body := toLowerStr bookNoParent.kind }]) :=
  ⟨rfl, by decide,
    c7_parentless_resource_paths 5 bookNoParent ⟨"Book", "", []⟩ rfl (by decide)⟩

/-- C9: compilation is deterministic.  The embedding is a pure function of
the resource, the descriptor environment and the fuel — the Go code reads
no clock, no randomness and no map-iteration order — so compiling the same
schema twice into fresh (empty) accumulators yields identical artifacts. -/
theorem c9_compile_deterministic (env : DescEnv) (fuel : Nat) (r : ParsedResource) :
    AddResource env fuel r ⟨[]⟩ ⟨[]⟩ = AddResource env fuel r ⟨[]⟩ ⟨[]⟩ := rfl

/-- C3 counterexample: the claim says a failed field-mask load makes the
Update generator return an error, and that the Delete generator's error is
wrapped with the resource kind.  In envFail both loads fail, yet AddUpdate
returns no error (the Go code discards the load error with `_`), and
AddDelete returns the raw "load failed", which does not even contain the
kind "Book". -/
theorem c3_claim_counterexample :
    envFail.fieldMask = none ∧
    (AddUpdate envFail 5 bookNoParent ⟨"Book", "", []⟩ ⟨[]⟩ ⟨[]⟩).errMsg = none ∧
    envFail.emptyMsg = .error "load failed" ∧
    (AddDelete envFail 5 bookNoParent ⟨"Book", "", []⟩ ⟨[]⟩ ⟨[]⟩).errMsg
      = some "load failed" ∧
    bookNoParent.kind = "Book" ∧
    ¬ List.IsInfix "Book".toList "load failed".toList :=
  ⟨rfl, by decide, rfl, by decide, rfl, by decide⟩

/-- C3 (amended): the only runtime failure mode of the per-method
generators is the Delete generator's empty-message descriptor load, whose
error is returned unwrapped; the Update generator discards its field-mask
load error and never fails, and the remaining generators return no error
at all. -/
theorem c3_generator_error_modes (env : DescEnv) (fuel : Nat)
    (r : ParsedResource) (resourceMb : GeneratedMessage)
    (fb : FileBuilder) (sb : ServiceBuilder) :
    (AddCreate fuel r resourceMb fb sb).errMsg = none ∧
    (AddGet fuel r resourceMb fb sb).errMsg = none ∧
    (AddUpdate env fuel r resourceMb fb sb).errMsg = none ∧
    ((AddDelete env fuel r resourceMb fb sb).errMsg
      = match env.emptyMsg with
        | .error e => some e
        | .ok _ => none) ∧
    (AddList fuel r resourceMb fb sb).errMsg = none ∧
    (AddGlobalList r resourceMb fb sb).errMsg = none ∧
    (AddApply fuel r resourceMb fb sb).errMsg = none := by
  refine ⟨?_, ?_, ?_, ?_, ?_, ?_, ?_⟩
  · cases h : generateParentHTTPPath fuel r <;>
      simp [AddCreate, h, GenResult.errMsg]
  · cases h : generateHTTPPath fuel r <;>
      simp [AddGet, h, GenResult.errMsg]
  · cases h : generateHTTPPath fuel r <;>
      simp [AddUpdate, h, GenResult.errMsg]
  · cases he : env.emptyMsg with
    | error e => simp [AddDelete, he, GenResult.errMsg]
    | ok en =>
      cases h : generateHTTPPath fuel r <;>
        simp [AddDelete, he, h, GenResult.errMsg]
  · cases h : generateParentHTTPPath fuel r <;>
      simp [AddList, h, GenResult.errMsg]
  · simp [AddGlobalList, GenResult.errMsg]
  · cases h : generateHTTPPath fuel r <;>
      simp [AddApply, h, GenResult.errMsg]

/-- C4: a resource with a field whose type has no proto mapping makes
AddResource fail with an error naming both the resource kind and the
offending type, and the file and service accumulators are returned exactly
as given — no message for the resource is registered. -/
theorem c4_unsupported_field_type_fatal (env : DescEnv) (fuel : Nat)
    (r : ParsedResource) (fb : FileBuilder) (sb : ServiceBuilder)
    (h : fieldsMapped r = false) :
    ∃ t : SchemaType, (∃ f ∈ r.fields, f.type = t) ∧ isOkE (mapScalar t) = false ∧
      AddResource env fuel r fb sb
        = .err ("unable to generate resource " ++ r.kind ++ ": "
            ++ ("proto mapping for type " ++ SchemaType.name t ++ " not found"))
            fb sb := by
  have hnot : ¬ (∀ f ∈ r.GetFieldsSortedByNumber, isOkE (mapScalar f.type) = true) := by
    intro hall
    have hall2 : fieldsMapped r = true := by
      apply List.all_eq_true.mpr
      intro f hf
      exact hall f
        ((List.Perm.mem_iff (List.perm_insertionSort _ r.fields)).mpr hf)
    simp [hall2] at h
  obtain ⟨t, ⟨f, hf, hft⟩, ht, hb⟩ := buildResourceFields_first_error _ hnot
  refine ⟨t,
    ⟨f, (List.Perm.mem_iff (List.perm_insertionSort _ r.fields)).mp hf, hft⟩,
    ht, ?_⟩
  simp [AddResource, GeneratedResourceMessage, hb]

/-- Witness for C4 at a concrete Book with one unmapped field type. -/
theorem c4_witness :
    fieldsMapped badBook = false ∧
    (∃ t : SchemaType, (∃ f ∈ badBook.fields, f.type = t) ∧
      isOkE (mapScalar t) = false ∧
      AddResource envOK 5 badBook ⟨[]⟩ ⟨[]⟩
        = .err ("unable to generate resource " ++ badBook.kind ++ ": "
            ++ ("proto mapping for type " ++ SchemaType.name t ++ " not found"))
            ⟨[]⟩ ⟨[]⟩) :=
  ⟨by decide, c4_unsupported_field_type_fatal envOK 5 badBook ⟨[]⟩ ⟨[]⟩ (by decide)⟩

/-- C10: registration is not atomic.  For the all-methods Book compiled in
an environment where the empty-message load fails, AddResource returns the
Delete generator's error while the accumulators already hold the resource
message, the Create/Get/Update requests and the Delete request, and the
Create/Get/Update methods; nothing after Delete runs. -/
theorem c10_partial_registration_on_delete_failure :
    (AddResource envFail 5 bookNoParent ⟨[]⟩ ⟨[]⟩).errMsg = some "load failed" ∧
    (AddResource envFail 5 bookNoParent ⟨[]⟩ ⟨[]⟩).messageNames
      = some ["Book", "CreateBookRequest", "GetBookRequest", "UpdateBookRequest",
              "DeleteBookRequest"] ∧
    (AddResource envFail 5 bookNoParent ⟨[]⟩ ⟨[]⟩).methodNames
      = some ["CreateBook", "GetBook", "UpdateBook"] := by
  refine ⟨by decide, by decide, by decide⟩

/-- C5: with every field mapped, the empty descriptor available and the
path generation terminating, AddResource registers exactly the resource
message followed by, per enabled method, the prescribed request/response
messages (request only for Create/Read/Update/Delete/Apply, request and
response for List/GlobalList) and exactly one RPC method per enabled
method; a disabled method contributes no message and no method. -/
theorem c5_enabled_methods_exact_artifacts (env : DescEnv) (fuel : Nat)
    (r : ParsedResource) (m : MethodSet) (emptyName : String)
    (fb : FileBuilder) (sb : ServiceBuilder)
    (hm : r.methods = some m) (hf : fieldsMapped r = true)
    (he : env.emptyMsg = .ok emptyName) (hp : pathTerminates r = true)
    (hpp : parentPathTerminates r = true) (hfuel : 1 ≤ fuel) :
    AddResource env fuel r fb sb
      = .ok
          ⟨fb.messages
            ++ resourceMessageOf r
              :: expectedMessages env r m (resourceMessageOf r)⟩
          ⟨sb.methods ++ expectedMethods r m (resourceMessageOf r) emptyName⟩ :=
  AddResource_ok env fuel r m emptyName fb sb hm hf he hp hpp hfuel

/-- Witness for C5 at the concrete all-methods Book resource. -/
theorem c5_witness :
    bookNoParent.methods = some allMethods ∧
    fieldsMapped bookNoParent = true ∧
    envOK.emptyMsg = .ok "google.protobuf.Empty" ∧
    pathTerminates bookNoParent = true ∧
    parentPathTerminates bookNoParent = true ∧
    AddResource envOK 5 bookNoParent ⟨[]⟩ ⟨[]⟩
      = .ok
          ⟨(⟨[]⟩ : FileBuilder).messages
            ++ resourceMessageOf bookNoParent
              :: expectedMessages envOK bookNoParent allMethods
                  (resourceMessageOf bookNoParent)⟩
          ⟨(⟨[]⟩ : ServiceBuilder).methods
            ++ expectedMethods bookNoParent allMethods
                (resourceMessageOf bookNoParent) "google.protobuf.Empty"⟩ :=
  ⟨rfl, by decide, rfl, by decide, by decide,
    c5_enabled_methods_exact_artifacts envOK 5 bookNoParent allMethods
      "google.protobuf.Empty" ⟨[]⟩ ⟨[]⟩ rfl (by decide) rfl (by decide) (by decide)
      (by decide)⟩

/-- C6: for a resource whose field types are all mapped, the generated
resource message has exactly as many fields as the schema, the generated
(name, number) pairs are a permutation of the schema's (bijection with
names and author-assigned numbers preserved verbatim), and the generated
fields are ordered by field number. -/
theorem c6_resource_message_bijection (r : ParsedResource)
    (h : fieldsMapped r = true) :
    ∃ mres : GeneratedMessage, GeneratedResourceMessage r = .ok mres ∧
      mres.fields.length = r.fields.length ∧
      List.Perm (mres.fields.map fun f => (f.name, f.number))
        (r.fields.map fun p => (p.name, p.number)) ∧
      List.Pairwise (fun f g => f.number ≤ g.number) mres.fields := by
  refine ⟨_, GeneratedResourceMessage_ok r h, ?_, ?_, ?_⟩
  · simp [ParsedResource.GetFieldsSortedByNumber]
  · have hmm : ((r.GetFieldsSortedByNumber.map fun p =>
        genField p (mapScalarD p.type)).map fun f => (f.name, f.number))
        = r.GetFieldsSortedByNumber.map fun p => (p.name, p.number) := by
      simp only [List.map_map]
      rfl
    simpa [hmm, ParsedResource.GetFieldsSortedByNumber] using
      List.Perm.map (fun p : FieldSchema => (p.name, p.number))
        (List.perm_insertionSort (fun a b : FieldSchema => a.number ≤ b.number)
          r.fields)
  · have hs := List.sorted_insertionSort
      (fun a b : FieldSchema => a.number ≤ b.number) r.fields
    exact List.Pairwise.map _ (fun a b hab => hab) hs

/-- Witness for C6 at the concrete parentless Book resource. -/
theorem c6_witness :
    fieldsMapped bookNoParent = true ∧
    (∃ mres : GeneratedMessage, GeneratedResourceMessage bookNoParent = .ok mres ∧
      mres.fields.length = bookNoParent.fields.length ∧
      List.Perm (mres.fields.map fun f => (f.name, f.number))
        (bookNoParent.fields.map fun p => (p.name, p.number)) ∧
      List.Pairwise (fun f g => f.number ≤ g.number) mres.fields) :=
  ⟨by decide, c6_resource_message_bijection bookNoParent (by decide)⟩

/-- C8: every structural field added by the field helpers sits at a fixed
constant number that does not depend on the resource or its schema: the
same lists of numbers appear for every resource and every embedded
resource message, with parent=1, id=2 and path=1 as reserved. -/
theorem c8_structural_field_numbers_fixed (env : DescEnv) (r : ParsedResource)
    (resourceMb : GeneratedMessage) :
    (createRequestMessage r resourceMb).fields.map GeneratedField.number
      = [FIELD_PARENT_NUMBER, FIELD_ID_NUMBER, FIELD_RESOURCE_NUMBER] ∧
    (getRequestMessage r).fields.map GeneratedField.number
      = [FIELD_PATH_NUMBER] ∧
    (updateRequestMessage env r resourceMb).fields.map GeneratedField.number
      = [FIELD_PATH_NUMBER, FIELD_RESOURCE_NUMBER, FIELD_UPDATE_MASK_NUMBER] ∧
    (deleteRequestMessage r).fields.map GeneratedField.number
      = [FIELD_PATH_NUMBER] ∧
    (listRequestMessage r).fields.map GeneratedField.number
      = [FIELD_PARENT_NUMBER, FIELD_PAGE_TOKEN_NUMBER, FIELD_MAX_PAGE_SIZE_NUMBER] ∧
    (listResponseMessage r resourceMb).fields.map GeneratedField.number
      = [FIELD_RESOURCES_NUMBER, FIELD_NEXT_PAGE_TOKEN_NUMBER] ∧
    (globalListRequestMessage r).fields.map GeneratedField.number
      = [FIELD_PATH_NUMBER, FIELD_PAGE_TOKEN_NUMBER] ∧
    (globalListResponseMessage r resourceMb).fields.map GeneratedField.number
      = [FIELD_RESOURCES_NUMBER, FIELD_NEXT_PAGE_TOKEN_NUMBER] ∧
    (applyRequestMessage r resourceMb).fields.map GeneratedField.number
      = [FIELD_PATH_NUMBER, FIELD_RESOURCE_NUMBER] ∧
    FIELD_PARENT_NUMBER = 1 ∧ FIELD_ID_NUMBER = 2 ∧ FIELD_PATH_NUMBER = 1 :=
  ⟨rfl, rfl, rfl, rfl, rfl, rfl, rfl, rfl, rfl, rfl, rfl, rfl⟩
